import Mathlib

set_option maxRecDepth 4000

/-!
Verification of the rgispy datastream decoder and sampling pipeline
(`rgispy/sample.py`), via a shallow embedding in Lean 4.

Modelling conventions:
* Byte streams are `List Nat` (each entry one byte, 0..255); `read` on a
  Python binary file object is modelled by taking a prefix of the list.
* Machine integers are `Int` with explicit two's-complement decoding.
* Floating point cells are modelled exactly, as `Option ℚ`: `some q` is a
  finite value and `none` is the not-a-number marker (non-finite IEEE
  payloads are all collapsed to the marker).  Equality of cells follows
  IEEE comparison: the marker compares unequal to everything.
* Fallible code returns `Except String`; the strings mirror the Python
  exception that the corresponding source line raises.
-/

/-- A single byte of the input stream (0..255). -/
abbrev Byte := Nat

/-- A grid cell: `some q` is a finite numeric value, `none` is NaN. -/
abbrev Cell := Option ℚ

/-- Elementwise numeric equality as numpy computes it: NaN is unequal to
everything, including itself. -/
def cellEq (a b : Cell) : Bool :=
  match a, b with
  | some x, some y => x == y
  | _, _ => false

/-- Little-endian interpretation of a byte list as an unsigned integer. -/
def leNat : List Byte → Nat
  | [] => 0
  | b :: bs => b + 256 * leNat bs

/-- Two's-complement reading of an unsigned `w`-byte value. -/
def toSigned (w : Nat) (n : Nat) : Int :=
  if n < 2 ^ (8 * w - 1) then (n : Int) else (n : Int) - 2 ^ (8 * w)

/-- Truncation of a rational toward zero (C `(int)` cast semantics used by
`ndarray.astype` on finite values): the floor of the absolute value,
carrying the sign. -/
def truncQ (q : ℚ) : Int :=
  if 0 ≤ q.num then ((q.num.natAbs / q.den : Nat) : Int)
  else -((q.num.natAbs / q.den : Nat) : Int)

/-- The dyadic rational `num * 2 ^ k`, built directly from a numerator and
denominator (the arithmetic stays kernel-computable this way). -/
def dyadicQ (num : Int) (k : Int) : ℚ :=
  if 0 ≤ k then ((num * 2 ^ k.toNat : Int) : ℚ) else mkRat num (2 ^ (-k).toNat)

/-- `pandas.Period("{year}-01-01").is_leap_year`, modelled from the
library's documented semantics: the Gregorian leap rule applied to the
period's year. -/
def pd_is_leap_year (year : Int) : Bool :=
  year % 4 == 0 && (year % 100 != 0 || year % 400 == 0)

/-- Python `str.lower()` restricted to its ASCII action (all strings fed
to it by this program are ASCII). -/
def pyLower (s : String) : String := ⟨s.data.map Char.toLower⟩

/-- `n_records` (sample.py lines 156-184): expected record count of a
datastream for a year and time step.  The `assert` failure is modelled as
an error value. -/
def n_records (year : Int) (time_step : String) : Except String Nat :=
  let ts := pyLower time_step
  if ts = "annual" ∨ ts = "monthly" ∨ ts = "daily" then
    if ts = "annual" then .ok 1
    else if ts = "monthly" then .ok 12
    else .ok (if pd_is_leap_year year then 366 else 365)
  else .error "AssertionError: time_step must be annual monthly or daily"

/-- **C4** — For every integer year `y`, `n_records` returns 1 for annual
resolution and 12 for monthly resolution, and for daily resolution returns
366 exactly when `y` is divisible by 4 and (not divisible by 100 or
divisible by 400), otherwise 365. -/
theorem n_records_policy (y : Int) :
    n_records y "annual" = .ok 1 ∧
    n_records y "monthly" = .ok 12 ∧
    (n_records y "daily" = .ok 366 ↔ (4 ∣ y ∧ (¬ (100 ∣ y) ∨ 400 ∣ y))) ∧
    (n_records y "daily" = .ok 366 ∨ n_records y "daily" = .ok 365) := by
  have hleap : pd_is_leap_year y = true ↔ (4 ∣ y ∧ (¬ (100 ∣ y) ∨ 400 ∣ y)) := by
    simp only [pd_is_leap_year, Bool.and_eq_true, beq_iff_eq, Bool.or_eq_true,
      bne_iff_ne, ne_eq]
    omega
  have hd : n_records y "daily" =
      .ok (if pd_is_leap_year y then 366 else 365) := rfl
  refine ⟨rfl, rfl, ?_, ?_⟩
  · rw [hd, ← hleap]
    rcases h : pd_is_leap_year y
    · simp
    · simp
  · rw [hd]
    rcases pd_is_leap_year y
    · right; rfl
    · left; rfl

/-- **C10** — `n_records` matches its time-step argument
case-insensitively: whenever the lowercase form of `s` is one of the three
recognized values, `n_records y s` equals `n_records y (pyLower s)`, so
mixed-case spellings such as "Daily" are accepted with the same record
count. -/
theorem n_records_case_insensitive (y : Int) (s : String)
    (h : pyLower s = "annual" ∨ pyLower s = "monthly" ∨ pyLower s = "daily") :
    n_records y s = n_records y (pyLower s) := by
  rcases h with h | h | h <;>
    · unfold n_records
      rw [h]
      rfl

/-- Witness for C10 at the concrete mixed-case input `"Daily"`. -/
theorem n_records_case_insensitive_witness :
    (pyLower "Daily" = "annual" ∨ pyLower "Daily" = "monthly" ∨
      pyLower "Daily" = "daily") ∧
    n_records 2000 "Daily" = n_records 2000 (pyLower "Daily") :=
  ⟨by decide, n_records_case_insensitive 2000 "Daily" (by decide)⟩

/-- The numpy decoding types produced by `_npType`. -/
inductive NpType
  | int16
  | int32
  | float32
  | float64
deriving DecidableEq

/-- `npType(1).itemsize`: byte width of one element. -/
def NpType.itemsize : NpType → Nat
  | .int16 => 2
  | .int32 => 4
  | .float32 => 4
  | .float64 => 8

/-- Whether the dtype is an integer dtype (cannot hold NaN). -/
def NpType.isInt : NpType → Bool
  | .int16 => true
  | .int32 => true
  | _ => false

/-- `_npType` (sample.py lines 131-153): translate a GDBC type code into a
numpy dtype; unknown codes raise.  (Purity of the original is reflected by
this being a total Lean function of its argument.) -/
def _npType (nType : Int) : Except String NpType :=
  if nType = 5 then .ok .int16
  else if nType = 6 then .ok .int32
  else if nType = 7 then .ok .float32
  else if nType = 8 then .ok .float64
  else .error ("Unknown value format: type " ++ toString nType)

/-- **C6** — `_npType` maps 5 to 16-bit signed int, 6 to 32-bit signed
int, 7 to 32-bit float, 8 to 64-bit float, and fails with the
unknown-format error for every code outside {5,6,7,8}. -/
theorem npType_total_mapping :
    _npType 5 = .ok .int16 ∧ _npType 6 = .ok .int32 ∧
    _npType 7 = .ok .float32 ∧ _npType 8 = .ok .float64 ∧
    ∀ n : Int, n ≠ 5 → n ≠ 6 → n ≠ 7 → n ≠ 8 →
      _npType n = .error ("Unknown value format: type " ++ toString n) := by
  refine ⟨rfl, rfl, rfl, rfl, ?_⟩
  intro n h5 h6 h7 h8
  simp [_npType, h5, h6, h7, h8]

/-- Witness for C6 at the concrete unknown code 3. -/
theorem npType_total_mapping_witness :
    (3 : Int) ≠ 5 ∧
    _npType 3 = .error ("Unknown value format: type " ++ toString (3 : Int)) :=
  ⟨by decide,
    npType_total_mapping.2.2.2.2 3 (by decide) (by decide) (by decide) (by decide)⟩

/-- Split a character list at every occurrence of `sep`. -/
def splitCh (sep : Char) : List Char → List (List Char)
  | [] => [[]]
  | c :: cs =>
    match splitCh sep cs with
    | [] => [[]]
    | g :: gs => if c = sep then [] :: g :: gs else (c :: g) :: gs

/-- `pathlib.Path(p).name`: the final path component. -/
def pathName (p : String) : String := ⟨(splitCh '/' p.data).getLastD []⟩

/-- Python `file_name.split(".", 1)[-1]`: everything after the first dot,
or the whole string when it contains no dot. -/
def pySplitFirstTail (sep : Char) (l : List Char) : List Char :=
  match l.dropWhile (fun c => ¬ c = sep) with
  | [] => l
  | _ :: rest => rest

/-- The local `extension` of `_is_compressed`:
`file_name.split(".", 1)[-1]`. -/
def pyExtOf (file_name : String) : String :=
  ⟨pySplitFirstTail '.' file_name.data⟩

/-- `_is_compressed` (sample.py lines 219-230): decide compression from
`file_name.split(".", 1)[-1]`; an unrecognized extension trips the
`assert`. -/
def _is_compressed (file_name : String) : Except String Bool :=
  if pyExtOf file_name = "gds.gz" ∨ pyExtOf file_name = "ds.gz" ∨
      pyExtOf file_name = "gds" ∨ pyExtOf file_name = "ds" then
    .ok (decide (pyExtOf file_name = "gds.gz" ∨ pyExtOf file_name = "ds.gz"))
  else .error "AssertionError: extension must be either gz or gds or ds"

/-- The kinds of byte-readable handle `get_true_datastream` can return. -/
inductive DsReader
  | gzipFile (path : String)
  | rawFile (path : String)
  | direct
deriving DecidableEq

/-- Inputs accepted by `get_true_datastream`: a path, or an already-open
byte stream.  For a stream, `name` is `some n` when the Python object's
`.name` attribute is the string `n` (standard input reports `"<stdin>"`),
and `none` when `.name` is not a string (e.g. the integer file descriptor
of a subprocess pipe, for which `Path(name)` raises `TypeError`). -/
inductive FileInput
  | path (p : String)
  | stream (bytes : List Byte) (name : Option String)

/-- `get_true_datastream` (sample.py lines 206-263).  `Path.resolve()` is
modelled as leaving the final name component unchanged.  `.direct` stands
for returning the passed-in stream (or its binary buffer) itself. -/
def get_true_datastream : FileInput → Except String DsReader
  | .path p =>
    match _is_compressed (pathName p) with
    | .error e => .error e
    | .ok c => if c then .ok (.gzipFile p) else .ok (.rawFile p)
  | .stream _ name =>
    match name with
    | none => .ok .direct
    | some n =>
      if n ≠ "<stdin>" then
        match _is_compressed (pathName n) with
        | .error e => .error e
        | .ok c => if c then .ok (.gzipFile (pathName n)) else .ok .direct
      else .ok .direct

/-- Counterexample to C5 as stated: the path `"a.b.ds"` ends in `.ds`,
yet the resolver rejects it, because the recognized suffix is computed as
everything after the first dot of the filename (`"b.ds"` here), not the
trailing extension. -/
theorem get_true_datastream_multidot_counterexample :
    get_true_datastream (.path "a.b.ds") =
      .error "AssertionError: extension must be either gz or gds or ds" := by
  rfl

/-- **C5 (amended)** — For every path, the resolver takes the portion of
the filename after its first dot (the whole filename when it has no dot):
exactly `gds.gz`/`ds.gz` yield the decompressing reader, exactly
`gds`/`ds` yield the raw reader, and anything else fails with the
unsupported-extension assertion.  Paths whose filename carries extra dots
before the suffix (such as `a.b.ds`) are therefore rejected even though
their trailing extension is recognized. -/
theorem get_true_datastream_path_spec (p : String) :
    get_true_datastream (.path p) =
      (if pyExtOf (pathName p) = "gds.gz" ∨ pyExtOf (pathName p) = "ds.gz" then
        .ok (.gzipFile p)
      else if pyExtOf (pathName p) = "gds" ∨ pyExtOf (pathName p) = "ds" then
        .ok (.rawFile p)
      else .error "AssertionError: extension must be either gz or gds or ds") := by
  have unf : get_true_datastream (.path p) =
      (match _is_compressed (pathName p) with
       | .error e => .error e
       | .ok c => if c then .ok (.gzipFile p) else .ok (.rawFile p)) := rfl
  rw [unf]
  by_cases h1 : pyExtOf (pathName p) = "gds.gz" ∨ pyExtOf (pathName p) = "ds.gz"
  · have hc : _is_compressed (pathName p) = .ok true := by
      rcases h1 with h | h <;> (unfold _is_compressed; rw [h]) <;> try rfl
    rw [hc, if_pos h1]
    rfl
  · by_cases h2 : pyExtOf (pathName p) = "gds" ∨ pyExtOf (pathName p) = "ds"
    · have hc : _is_compressed (pathName p) = .ok false := by
        rcases h2 with h | h <;> (unfold _is_compressed; rw [h]) <;> try rfl
      rw [hc, if_neg h1, if_pos h2]
      rfl
    · have hc : _is_compressed (pathName p) =
          .error "AssertionError: extension must be either gz or gds or ds" := by
        unfold _is_compressed
        rw [if_neg (by tauto)]
      rw [hc, if_neg h1, if_neg h2]

/-- Decode 8 little-endian bytes as an IEEE-754 double.  Finite values are
exact rationals; NaN and the infinities are collapsed to the NaN marker. -/
def decodeF64 (bytes : List Byte) : Cell :=
  let bits := leNat bytes
  let sign : Int := if bits / 2 ^ 63 = 1 then -1 else 1
  let expo : Nat := (bits / 2 ^ 52) % 2 ^ 11
  let mant : Nat := bits % 2 ^ 52
  if expo = 2047 then none
  else if expo = 0 then some (dyadicQ (sign * mant) (-1074))
  else some (dyadicQ (sign * ((2 ^ 52 + mant : Nat) : Int)) ((expo : Int) - 1075))

/-- Decode 4 little-endian bytes as an IEEE-754 single, exactly. -/
def decodeF32 (bytes : List Byte) : Cell :=
  let bits := leNat bytes
  let sign : Int := if bits / 2 ^ 31 = 1 then -1 else 1
  let expo : Nat := (bits / 2 ^ 23) % 2 ^ 8
  let mant : Nat := bits % 2 ^ 23
  if expo = 255 then none
  else if expo = 0 then some (dyadicQ (sign * mant) (-149))
  else some (dyadicQ (sign * ((2 ^ 23 + mant : Nat) : Int)) ((expo : Int) - 150))

/-- `file.read(n)` on a forward-only binary stream: yields at most `n`
bytes and the remaining stream; a negative `n` reads everything. -/
def pyRead (s : List Byte) (n : Int) : List Byte × List Byte :=
  if n < 0 then (s, []) else (s.take n.toNat, s.drop n.toNat)

/-- Split the first `count` chunks of width `w` off a byte list. -/
def chunksOfN (w : Nat) : Nat → List Byte → List (List Byte)
  | 0, _ => []
  | count + 1, l => l.take w :: chunksOfN w count (l.drop w)

/-- `np.frombuffer(buf, dtype)`: reinterpret a byte buffer as an array of
values of the dtype (little-endian, the only order this model covers). -/
def decodeVals (t : NpType) (buf : List Byte) : List Cell :=
  let chunks := chunksOfN t.itemsize (buf.length / t.itemsize) buf
  match t with
  | .int16 => chunks.map (fun c => some ((toSigned 2 (leNat c) : Int) : ℚ))
  | .int32 => chunks.map (fun c => some ((toSigned 4 (leNat c) : Int) : ℚ))
  | .float32 => chunks.map decodeF32
  | .float64 => chunks.map decodeF64

/-- A parsed calendar date (what `datetime.datetime` carries of interest
here; strptime defaults unparsed month/day to 1). -/
structure DateT where
  year : Int
  month : Nat
  day : Nat
deriving DecidableEq

/-- Length of a month in `datetime`'s proleptic Gregorian calendar (the
same leap rule pandas uses). -/
def daysInMonth (y : Int) (m : Nat) : Nat :=
  if m = 2 then (if pd_is_leap_year y then 29 else 28)
  else if m = 4 ∨ m = 6 ∨ m = 9 ∨ m = 11 then 30
  else 31

/-- ASCII digit test. -/
def isDigitCh (c : Char) : Bool := 48 ≤ c.toNat && c.toNat ≤ 57

/-- Value of an ASCII digit. -/
def digitVal (c : Char) : Nat := c.toNat - 48

/-- strptime `%Y`: exactly four digits. -/
def parseYear4 : List Char → Option (Nat × List Char)
  | a :: b :: c :: d :: rest =>
    if isDigitCh a && isDigitCh b && isDigitCh c && isDigitCh d then
      some (digitVal a * 1000 + digitVal b * 100 + digitVal c * 10 + digitVal d,
        rest)
    else none
  | _ => none

/-- strptime `%m`: the regex `1[0-2]|0[1-9]|[1-9]`, two digits tried
first. -/
def parseMonthRe : List Char → Option (Nat × List Char)
  | a :: b :: rest =>
    if isDigitCh a && isDigitCh b &&
        ((digitVal a == 1 && digitVal b ≤ 2) ||
         (digitVal a == 0 && 1 ≤ digitVal b)) then
      some (digitVal a * 10 + digitVal b, rest)
    else if isDigitCh a && 1 ≤ digitVal a then some (digitVal a, b :: rest)
    else none
  | [a] =>
    if isDigitCh a && 1 ≤ digitVal a then some (digitVal a, []) else none
  | [] => none

/-- strptime `%d`: the regex `3[01]|[12]\x5cd|0[1-9]|[1-9]`, two digits
tried first. -/
def parseDayRe : List Char → Option (Nat × List Char)
  | a :: b :: rest =>
    if isDigitCh a && isDigitCh b &&
        ((digitVal a == 3 && digitVal b ≤ 1) ||
         digitVal a == 1 || digitVal a == 2 ||
         (digitVal a == 0 && 1 ≤ digitVal b)) then
      some (digitVal a * 10 + digitVal b, rest)
    else if isDigitCh a && 1 ≤ digitVal a then some (digitVal a, b :: rest)
    else none
  | [a] =>
    if isDigitCh a && 1 ≤ digitVal a then some (digitVal a, []) else none
  | [] => none

/-- `datetime.datetime.strptime(s, fmt)` for the three formats `headDS`
selects: `%Y-%m-%d` for "daily", `%Y-%m` for "monthly", `%Y` otherwise
(exact, non-lowercased comparison, as in the source).  The whole string
must be consumed, and `datetime` validates the year range and the day
against the month length. -/
def strptimeDS (s : List Char) (time_step : String) : Except String DateT :=
  if time_step = "daily" then
    match parseYear4 s with
    | none => .error "ValueError: time data does not match format"
    | some (y, r1) =>
      match r1 with
      | '-' :: r2 =>
        match parseMonthRe r2 with
        | none => .error "ValueError: time data does not match format"
        | some (m, r3) =>
          match r3 with
          | '-' :: r4 =>
            match parseDayRe r4 with
            | none => .error "ValueError: time data does not match format"
            | some (d, r5) =>
              if r5 = [] then
                if 1 ≤ (y : Int) ∧ d ≤ daysInMonth y m then .ok ⟨y, m, d⟩
                else .error "ValueError: day is out of range for month"
              else .error "ValueError: unconverted data remains"
          | _ => .error "ValueError: time data does not match format"
      | _ => .error "ValueError: time data does not match format"
  else if time_step = "monthly" then
    match parseYear4 s with
    | none => .error "ValueError: time data does not match format"
    | some (y, r1) =>
      match r1 with
      | '-' :: r2 =>
        match parseMonthRe r2 with
        | none => .error "ValueError: time data does not match format"
        | some (m, r3) =>
          if r3 = [] then
            if 1 ≤ (y : Int) then .ok ⟨y, m, 1⟩
            else .error "ValueError: year 0 is out of range"
          else .error "ValueError: unconverted data remains"
      | _ => .error "ValueError: time data does not match format"
  else
    match parseYear4 s with
    | none => .error "ValueError: time data does not match format"
    | some (y, r1) =>
      if r1 = [] then
        if 1 ≤ (y : Int) then .ok ⟨y, 1, 1⟩
        else .error "ValueError: year 0 is out of range"
      else .error "ValueError: unconverted data remains"

/-- A ctypes `c_char * n` field value: the bytes up to the first NUL. -/
def cCharBytes (bytes : List Byte) : List Byte := bytes.takeWhile (· ≠ 0)

/-- `bytes.decode()` restricted to the ASCII range (multi-byte sequences
would in any case fail the date parse that always follows). -/
def pyDecodeAscii (bytes : List Byte) : Except String (List Char) :=
  if bytes.all (· < 128) then .ok (bytes.map (fun b => Char.ofNat b))
  else .error "UnicodeDecodeError"

/-- The values `headDS` extracts from a 40-byte `MFdsHeader`:
2-byte swap flag (unused), 2-byte type code, 4-byte item count, 8-byte
missing-value union (int from the first 4 bytes, or double from all 8,
selected by type code), 24-byte NUL-padded date string. -/
structure MFdsHeaderOut where
  typ : Int
  npT : NpType
  noData : Cell
  date : DateT
  items : Int

/-- `headDS` (sample.py lines 95-119): read and parse one 40-byte header.
`from_buffer_copy` raises when fewer than 40 bytes remain. -/
def headDS (ifile : List Byte) (time_step : String) :
    Except String (MFdsHeaderOut × List Byte) :=
  let (forty, rest) := pyRead ifile 40
  if forty.length < 40 then
    .error "ValueError: Buffer size too small (MFdsHeader.from_buffer_copy)"
  else
    let typeCode := toSigned 2 (leNat ((forty.drop 2).take 2))
    let NoData : Cell :=
      if typeCode > 6 then decodeF64 ((forty.drop 8).take 8)
      else some ((toSigned 4 (leNat ((forty.drop 8).take 4)) : Int) : ℚ)
    match _npType typeCode with
    | .error e => .error e
    | .ok npType =>
      match pyDecodeAscii (cCharBytes ((forty.drop 16).take 24)) with
      | .error e => .error e
      | .ok dateChars =>
        match strptimeDS dateChars time_step with
        | .error e => .error e
        | .ok Date =>
          let Items := toSigned 4 (leNat ((forty.drop 4).take 4))
          .ok (⟨typeCode, npType, NoData, Date, Items⟩, rest)

/-- `recordDS` (sample.py lines 122-128): optionally skip a 40-byte
header, then read `items * itemsize` bytes and reinterpret them via
`np.frombuffer` (which accepts a short read as long as it is a whole
number of elements). -/
def recordDS (ifile : List Byte) (items : Int) (npType : NpType)
    (skip : Bool) : Except String (List Cell × List Byte) :=
  match pyRead (if skip then (pyRead ifile 40).2 else ifile)
      (items * (npType.itemsize : Int)) with
  | (buf, rest) =>
    if buf.length % npType.itemsize = 0 then .ok (decodeVals npType buf, rest)
    else .error "ValueError: buffer size must be a multiple of element size"

/-- Wrap an integer into the `int32` range (C cast semantics). -/
def int32cast (t : Int) : Int := (t + 2 ^ 31) % 2 ^ 32 - 2 ^ 31

/-- One cell of `np.nan_to_num(mask_id, nan=0.0).astype("int32")`:
NaN (and the other non-finite values the marker collapses) becomes 0,
finite values are truncated toward zero and cast. -/
def cellToInt32 (c : Cell) : Int :=
  match c with
  | none => 0
  | some q => int32cast (truncQ q)

/-- numpy index wrapping: a negative index counts once from the end. -/
def npWrapIndex (n : Nat) (i : Int) : Int := if i < 0 then i + n else i

/-- numpy fancy indexing `lookup[idxs]`: negative indices wrap once from
the end, out-of-bounds indices raise `IndexError`. -/
def npIndexList (lookup : List Cell) : List Int → Except String (List Cell)
  | [] => .ok []
  | i :: rest =>
    if 0 ≤ npWrapIndex lookup.length i ∧
        npWrapIndex lookup.length i < (lookup.length : Int) then
      match npIndexList lookup rest with
      | .error e => .error e
      | .ok vals =>
        .ok (lookup.getD (npWrapIndex lookup.length i).toNat none :: vals)
    else .error "IndexError: index out of bounds"

/-- `flat.reshape(tmpl.shape)` where `flat` has exactly as many entries as
`tmpl`: split `flat` along the row lengths of `tmpl`. -/
def reshapeLike {α β : Type} : List (List α) → List β → List (List β)
  | [], _ => []
  | r :: rs, flat => flat.take r.length :: reshapeLike rs (flat.drop r.length)

/-- `Data[Data == NoData] = np.nan` (sample.py line 331).  numpy casts the
scalar `np.nan` to the array dtype before the masked assignment, so an
integer-typed `Data` raises `ValueError` no matter what the mask selects;
a float-typed `Data` gets NaN wherever the cell equals `NoData`. -/
def npSetNanWhereEq (dtype : NpType) (grid : List (List Cell))
    (noData : Cell) : Except String (List (List Cell)) :=
  if dtype.isInt then .error "ValueError: cannot convert float NaN to integer"
  else
    .ok (grid.map (fun row =>
      row.map (fun c => if cellEq c noData then none else c)))

/-- The per-record body of `iter_ds` (sample.py lines 326-331): prepend
`NoData` (`np.insert(Data, 0, NoData)`), index by the flattened cell-id
grid, reshape to its shape, and apply the sentinel substitution.  Between
the reshape and the substitution the source computes `Data.astype("float")`
for type codes ≤ 6 but binds the result to `_`, so the upcast is discarded
and `Data` keeps the dtype `npType`. -/
def remapRecord (npType : NpType) (noData : Cell) (recordData : List Cell)
    (cell_id : List (List Int)) : Except String (List (List Cell)) :=
  let data := noData :: recordData
  match npIndexList data cell_id.flatten with
  | .error e => .error e
  | .ok flat => npSetNanWhereEq npType (reshapeLike cell_id flat) noData

/-- The observable behaviour of one run of the `iter_ds` generator: the
records it yields, and then either normal exhaustion (with the unread
remainder of the stream) or a raised error. -/
structure DsRun where
  yields : List (List (List Cell) × DateT)
  outcome : Except String (List Byte)

/-- The record part of one `iter_ds` loop iteration (sample.py lines
324-333): decode the record at `s1` with `skip=False` using the item
count and dtype of the *first* header, remap it, and pair it with the
date chosen for this iteration. -/
def stepRecord (hdr : MFdsHeaderOut) (cell_id : List (List Int))
    (date : DateT) (s1 : List Byte) :
    Except String ((List (List Cell) × DateT) × List Byte) :=
  match recordDS s1 hdr.items hdr.npT false with
  | .error e => .error e
  | .ok (recData, s2) =>
    match remapRecord hdr.npT hdr.noData recData cell_id with
    | .error e => .error e
    | .ok grid => .ok ((grid, date), s2)

/-- Dispatch of one loop iteration on `day`: the first record keeps the
initial header's date; each later record parses a fresh header first. -/
def iter_ds_step (time_step : String) (hdr : MFdsHeaderOut)
    (cell_id : List (List Int)) (day : Nat) (date0 : DateT) (s : List Byte) :
    Except String ((List (List Cell) × DateT) × List Byte) :=
  if day = 0 then stepRecord hdr cell_id date0 s
  else
    match headDS s time_step with
    | .error e => .error e
    | .ok (h2, s1) => stepRecord hdr cell_id h2.date s1

/-- The record loop of `iter_ds`, iterated to the expected record
count. -/
def iter_ds_go (time_step : String) (hdr : MFdsHeaderOut)
    (cell_id : List (List Int)) :
    Nat → Nat → DateT → List Byte → DsRun
  | 0, _, _, s => ⟨[], .ok s⟩
  | rem + 1, day, date0, s =>
    match iter_ds_step time_step hdr cell_id day date0 s with
    | .error e => ⟨[], .error e⟩
    | .ok (item, s2) =>
      let r := iter_ds_go time_step hdr cell_id rem (day + 1) date0 s2
      ⟨item :: r.yields, r.outcome⟩

/-- `iter_ds` (sample.py lines 302-333): the streaming decode iterator.
Coerce the mask to int32 cell ids, compute the expected record count, read
the initial header, then loop. -/
def iter_ds (file_buf : List Byte) (mask_id : List (List Cell)) (year : Int)
    (time_step : String) : DsRun :=
  let cell_id := mask_id.map (fun row => row.map cellToInt32)
  match n_records year time_step with
  | .error e => ⟨[], .error e⟩
  | .ok nRecords =>
    match headDS file_buf time_step with
    | .error e => ⟨[], .error e⟩
    | .ok (hdr, s1) => iter_ds_go time_step hdr cell_id nRecords 0 hdr.date s1

/-- IEEE-754 double bytes (little-endian) of -9999.0. -/
def f64neg9999 : List Byte := [0, 0, 0, 0, 0x80, 0x87, 0xC3, 0xC0]

/-- IEEE-754 double bytes (little-endian) of 10.0. -/
def f64ten : List Byte := [0, 0, 0, 0, 0, 0, 0x24, 0x40]

/-- IEEE-754 double bytes (little-endian) of 20.0. -/
def f64twenty : List Byte := [0, 0, 0, 0, 0, 0, 0x34, 0x40]

/-- The 24-byte NUL-padded date field "2001" (annual format). -/
def dateAnnual2001 : List Byte := [50, 48, 48, 49] ++ List.replicate 20 0

/-- A one-record annual datastream with header type code 5 (16-bit int),
item count 1, missing value -9999 (read from the integer arm of the
union), date "2001", and the single record value 7. -/
def dsStreamInt16 : List Byte :=
  ([0, 0] ++ [5, 0] ++ [1, 0, 0, 0] ++ ([0xF1, 0xD8, 0xFF, 0xFF] ++ [0, 0, 0, 0])
    ++ dateAnnual2001) ++ [7, 0]

/-- A one-record annual datastream with header type code 8 (64-bit
float), item count 2, missing value -9999.0, date "2001", and record
values 10.0 and 20.0. -/
def dsStreamF64 : List Byte :=
  ([0, 0] ++ [8, 0] ++ [2, 0, 0, 0] ++ f64neg9999 ++ dateAnnual2001)
    ++ f64ten ++ f64twenty

/-- **C1** — Contrary to the claim, the Streaming Decode Iterator never
upcasts the remapped array: the source computes `Data.astype("float")` but
binds it to `_`, discarding the result (sample.py line 330).  For an
integer type code the subsequent `Data[Data == NoData] = np.nan` therefore
operates on an integer-typed array and raises `ValueError` instead of
substituting NaN.  Here: type code 5, record `[7]`, missing value -9999,
identifier grid `[[0]]` (whose 0-cell remaps to the missing value). -/
theorem iter_ds_int_upcast_discarded :
    iter_ds dsStreamInt16 [[some 0]] 2001 "annual" =
      ⟨[], .error "ValueError: cannot convert float NaN to integer"⟩ := rfl

/-- **C2** — The Streaming Decode Iterator remaps by building the lookup
array `missingValue :: record` (missing value at index 0, record values at
indices 1..itemCount in order) and indexing it by the flattened identifier
grid: first conjunct, for every record and every in-range identifier list.
Second conjunct: end to end on a concrete stream, identifier grid
`[[0,1],[2,1]]` with decoded record `[10, 20]` and missing value -9999
yields exactly `[[NaN, 10], [20, 10]]`. -/
theorem iter_ds_remap_lookup :
    (∀ (noData : Cell) (recordData : List Cell) (idxs : List Int),
      (∀ i ∈ idxs, 0 ≤ i ∧ i < ((noData :: recordData).length : Int)) →
      npIndexList (noData :: recordData) idxs =
        .ok (idxs.map (fun i => (noData :: recordData).getD i.toNat none))) ∧
    iter_ds dsStreamF64 [[some 0, some 1], [some 2, some 1]] 2001 "annual" =
      ⟨[([[none, some 10], [some 20, some 10]], ⟨2001, 1, 1⟩)], .ok []⟩ := by
  constructor
  · intro noData recordData idxs h
    induction idxs with
    | nil => rfl
    | cons i rest ih =>
      have hi := h i (List.mem_cons_self i rest)
      have hrest := ih (fun j hj => h j (List.mem_cons_of_mem i hj))
      have hwrap : npWrapIndex (noData :: recordData).length i = i := by
        unfold npWrapIndex
        rw [if_neg (by omega)]
      unfold npIndexList
      rw [hwrap, if_pos ⟨hi.1, hi.2⟩, hrest, List.map_cons]
  · rfl

/-- Witness for C2's general conjunct at the claim's concrete data:
lookup `[-9999, 10, 20]`, flattened identifier grid `[0, 1, 2, 1]`. -/
theorem iter_ds_remap_lookup_witness :
    npIndexList [some (-9999 : ℚ), some 10, some 20] [0, 1, 2, 1] =
      .ok [some (-9999 : ℚ), some 10, some 20, some 10] := by
  have h := iter_ds_remap_lookup.1 (some (-9999 : ℚ)) [some 10, some 20]
    [0, 1, 2, 1] (by decide)
  rw [h]
  rfl

/-- A successful header parse consumes exactly 40 bytes of the stream. -/
theorem headDS_consumes (s : List Byte) (ts : String) (hdr : MFdsHeaderOut)
    (s1 : List Byte) (h : headDS s ts = .ok (hdr, s1)) :
    s.length = 40 + s1.length := by
  unfold headDS at h
  rw [show pyRead s 40 = (s.take 40, s.drop 40) from by unfold pyRead; rfl] at h
  simp only [] at h
  by_cases hl : (s.take 40).length < 40
  · rw [if_pos hl] at h
    cases h
  · rw [if_neg hl] at h
    have hge : 40 ≤ s.length := by
      rw [List.length_take] at hl
      omega
    have hs1 : s1 = s.drop 40 := by
      split at h
      · cases h
      · split at h
        · cases h
        · split at h
          · cases h
          · injection h with h2
            exact (congrArg Prod.snd h2).symm
    rw [hs1, List.length_drop]
    omega

/-- A successful `skip=False` record read with nonnegative item count,
from a stream holding at least the full payload, consumes exactly
`items * itemsize` bytes. -/
theorem recordDS_consumes (s : List Byte) (items : Int) (t : NpType)
    (vals : List Cell) (s2 : List Byte) (hitems : 0 ≤ items)
    (hlen : items.toNat * t.itemsize ≤ s.length)
    (h : recordDS s items t false = .ok (vals, s2)) :
    s.length = items.toNat * t.itemsize + s2.length := by
  unfold recordDS at h
  have hmul : (items * (t.itemsize : Int)).toNat = items.toNat * t.itemsize := by
    rcases Int.eq_ofNat_of_zero_le hitems with ⟨k, rfl⟩
    rw [← Nat.cast_mul, Int.toNat_natCast, Int.toNat_natCast]
  rw [show pyRead (if false then (pyRead s 40).2 else s)
        (items * (t.itemsize : Int)) =
      (s.take (items * (t.itemsize : Int)).toNat,
        s.drop (items * (t.itemsize : Int)).toNat) from by
    unfold pyRead
    rw [if_neg (not_lt.mpr (mul_nonneg hitems (Int.natCast_nonneg _)))]
    rfl] at h
  simp only [] at h
  split at h
  · injection h with h2
    have hs2 : s2 = s.drop (items * (t.itemsize : Int)).toNat :=
      (congrArg Prod.snd h2).symm
    rw [hs2, List.length_drop, hmul]
    omega
  · cases h

/-- A successful record step from stream position `s1` consumes exactly
the record payload (`items * itemsize` bytes), given the payload is
available. -/
theorem stepRecord_consumes (hdr : MFdsHeaderOut) (cell_id : List (List Int))
    (date : DateT) (s1 : List Byte) (item : (List (List Cell) × DateT))
    (s2 : List Byte) (hitems : 0 ≤ hdr.items)
    (hlen : hdr.items.toNat * hdr.npT.itemsize ≤ s1.length)
    (h : stepRecord hdr cell_id date s1 = .ok (item, s2)) :
    s1.length = hdr.items.toNat * hdr.npT.itemsize + s2.length := by
  unfold stepRecord at h
  split at h
  · cases h
  · rename_i recData s2x heq
    split at h
    · cases h
    · injection h with h2
      have hs2 : s2x = s2 := congrArg Prod.snd h2
      rw [← hs2]
      exact recordDS_consumes s1 hdr.items hdr.npT recData s2x hitems hlen heq

/-- A successful loop iteration consumes exactly 40 header bytes (when
`day ≠ 0`) plus the record payload. -/
theorem iter_ds_step_consumes (ts : String) (hdr : MFdsHeaderOut)
    (cell_id : List (List Int)) (day : Nat) (date0 : DateT) (s : List Byte)
    (item : (List (List Cell) × DateT)) (s2 : List Byte)
    (hitems : 0 ≤ hdr.items)
    (hlen : (if day = 0 then 0 else 40) + hdr.items.toNat * hdr.npT.itemsize ≤
      s.length)
    (h : iter_ds_step ts hdr cell_id day date0 s = .ok (item, s2)) :
    s.length = (if day = 0 then 0 else 40) +
      hdr.items.toNat * hdr.npT.itemsize + s2.length := by
  unfold iter_ds_step at h
  by_cases hday : day = 0
  · rw [if_pos hday] at h hlen ⊢
    have := stepRecord_consumes hdr cell_id date0 s item s2 hitems
      (by omega) h
    omega
  · rw [if_neg hday] at h hlen ⊢
    split at h
    · cases h
    · rename_i h2 s1 hhd
      have hc := headDS_consumes s ts h2 s1 hhd
      have hr := stepRecord_consumes hdr cell_id h2.date s1 item s2 hitems
        (by omega) h
      omega

/-- If the loop finishes normally, it has yielded exactly `rem` records. -/
theorem iter_ds_go_count (ts : String) (hdr : MFdsHeaderOut)
    (cell_id : List (List Int)) :
    ∀ (rem day : Nat) (date0 : DateT) (s rest : List Byte),
      (iter_ds_go ts hdr cell_id rem day date0 s).outcome = .ok rest →
      (iter_ds_go ts hdr cell_id rem day date0 s).yields.length = rem := by
  intro rem
  induction rem with
  | zero => intro _ _ _ _ _; rfl
  | succ k ih =>
    intro day date0 s rest h
    unfold iter_ds_go at h ⊢
    rcases hstep : iter_ds_step ts hdr cell_id day date0 s with e | ⟨item, s2⟩
    · simp only [hstep] at h
      cases h
    · simp only [hstep] at h ⊢
      rw [List.length_cons, ih (day + 1) date0 s2 rest h]

/-- If the loop runs to completion from a stream holding all its
remaining full blocks (40-byte header + payload each, for `day ≥ 1`), it
consumes exactly those blocks. -/
theorem iter_ds_go_consumes (ts : String) (hdr : MFdsHeaderOut)
    (cell_id : List (List Int)) (hitems : 0 ≤ hdr.items) :
    ∀ (rem day : Nat) (date0 : DateT) (s rest : List Byte),
      day ≠ 0 →
      rem * (40 + hdr.items.toNat * hdr.npT.itemsize) ≤ s.length →
      (iter_ds_go ts hdr cell_id rem day date0 s).outcome = .ok rest →
      s.length = rem * (40 + hdr.items.toNat * hdr.npT.itemsize) + rest.length := by
  intro rem
  induction rem with
  | zero =>
    intro day date0 s rest _ _ h
    unfold iter_ds_go at h
    injection h with h2
    rw [← h2]
    omega
  | succ k ih =>
    intro day date0 s rest hday hlen h
    unfold iter_ds_go at h
    rcases hstep : iter_ds_step ts hdr cell_id day date0 s with e | ⟨item, s2⟩
    · simp only [hstep] at h
      cases h
    · simp only [hstep] at h
      rw [Nat.succ_mul] at hlen ⊢
      have hstep_len :
          (if day = 0 then 0 else 40) + hdr.items.toNat * hdr.npT.itemsize ≤
            s.length := by
        rw [if_neg hday]
        omega
      have hs2 := iter_ds_step_consumes ts hdr cell_id day date0 s item s2
        hitems hstep_len hstep
      rw [if_neg hday] at hs2
      have hlen2 : k * (40 + hdr.items.toNat * hdr.npT.itemsize) ≤ s2.length := by
        omega
      have hrec := ih (day + 1) date0 s2 rest (by omega) hlen2 h
      omega

/-- `n_records` never returns zero. -/
theorem n_records_pos (y : Int) (ts : String) (n : Nat)
    (h : n_records y ts = .ok n) : 1 ≤ n := by
  simp only [n_records] at h
  split at h
  · split at h
    · injection h with h2
      omega
    · split at h
      · injection h with h2
        omega
      · split at h <;> (injection h with h2; omega)
  · cases h

/-- **C3** — Whenever `iter_ds` runs to normal exhaustion, it has yielded
exactly `n_records year time_step` (grid, date) pairs, and the stream
consumption is exactly one 40-byte header plus one record payload per
yield: the header parsed before the loop (at the very start of the
stream) serves the first record without being re-read, a fresh 40-byte
header is parsed before each remaining record, and record decoding skips
no extra header bytes.  (The payload-availability hypothesis rules out
the truncated-final-record streams `np.frombuffer` silently accepts.) -/
theorem iter_ds_yield_count (s : List Byte) (mask_id : List (List Cell))
    (y : Int) (ts : String) (rest : List Byte)
    (hok : (iter_ds s mask_id y ts).outcome = .ok rest) :
    ∃ (n : Nat) (hdr : MFdsHeaderOut) (s1 : List Byte),
      n_records y ts = .ok n ∧
      (iter_ds s mask_id y ts).yields.length = n ∧
      headDS s ts = .ok (hdr, s1) ∧
      (0 ≤ hdr.items →
        n * (40 + hdr.items.toNat * hdr.npT.itemsize) ≤ s.length →
        s.length = n * (40 + hdr.items.toNat * hdr.npT.itemsize) +
          rest.length) := by
  simp only [iter_ds] at hok ⊢
  rcases hn : n_records y ts with e | n
  · simp only [hn] at hok
    cases hok
  · simp only [hn] at hok ⊢
    rcases hhd : headDS s ts with e | ⟨hdr, s1⟩
    · simp only [hhd] at hok
      cases hok
    · simp only [hhd] at hok ⊢
      refine ⟨n, hdr, s1, rfl, ?_, rfl, ?_⟩
      · exact iter_ds_go_count ts hdr _ n 0 hdr.date s1 rest hok
      · intro hitems hlen
        obtain ⟨k, rfl⟩ : ∃ k, n = k + 1 :=
          ⟨n - 1, by have := n_records_pos y ts n hn; omega⟩
        have hhc := headDS_consumes s ts hdr s1 hhd
        unfold iter_ds_go at hok
        rcases hstep : iter_ds_step ts hdr
            (mask_id.map (fun row => row.map cellToInt32)) 0 hdr.date s1 with
          e | ⟨item, s2⟩
        · simp only [hstep] at hok
          cases hok
        · simp only [hstep] at hok
          rw [Nat.succ_mul] at hlen ⊢
          have hstep_len :
              (if (0 : Nat) = 0 then 0 else 40) +
                hdr.items.toNat * hdr.npT.itemsize ≤ s1.length := by
            rw [if_pos rfl]
            omega
          have hs2 := iter_ds_step_consumes ts hdr _ 0 hdr.date s1 item s2
            hitems hstep_len hstep
          rw [if_pos rfl] at hs2
          have hlen2 :
              k * (40 + hdr.items.toNat * hdr.npT.itemsize) ≤ s2.length := by
            omega
          have hfin := iter_ds_go_consumes ts hdr _ hitems k 1 hdr.date s2
            rest (by omega) hlen2 hok
          omega

/-- 24-byte NUL-padded date field "2001-MM" (monthly format). -/
def monthlyDateBytes (m : Nat) : List Byte :=
  [50, 48, 48, 49, 45] ++ (if m < 10 then [48, 48 + m] else [49, 38 + m]) ++
    List.replicate 17 0

/-- A 40-byte header with type code 8 (64-bit float), item count 1,
missing value -9999.0, and date "2001-MM". -/
def monthHeader (m : Nat) : List Byte :=
  [0, 0] ++ [8, 0] ++ [1, 0, 0, 0] ++ f64neg9999 ++ monthlyDateBytes m

/-- A twelve-record monthly datastream for 2001: each 48-byte block is a
header followed by the single record value 10.0. -/
def dsStreamMonthly : List Byte :=
  ((List.range 12).map (fun m => monthHeader (m + 1) ++ f64ten)).flatten

/-- Witness for C3: a concrete twelve-record monthly stream, consumed in
full, with the byte accounting hypotheses discharged. -/
theorem iter_ds_yield_count_witness :
    ∃ (n : Nat) (hdr : MFdsHeaderOut) (s1 : List Byte),
      n_records 2001 "monthly" = .ok n ∧
      (iter_ds dsStreamMonthly [[some 1]] 2001 "monthly").yields.length = n ∧
      headDS dsStreamMonthly "monthly" = .ok (hdr, s1) ∧
      (0 ≤ hdr.items →
        n * (40 + hdr.items.toNat * hdr.npT.itemsize) ≤
          dsStreamMonthly.length →
        dsStreamMonthly.length =
          n * (40 + hdr.items.toNat * hdr.npT.itemsize) +
            List.length ([] : List Byte)) :=
  iter_ds_yield_count dsStreamMonthly [[some 1]] 2001 "monthly" [] rfl

/-- A mask layer as read from the mask dataset: its grid (`.data`) and
its declared `Type` attribute. -/
structure LayerData where
  data : List (List Cell)
  typeAttr : String
deriving DecidableEq

/-- The opened mask dataset: named layers (`xa.open_dataset` result as
consumed by `get_masks` / `sample_ds`). -/
structure MaskDS where
  layers : List (String × LayerData)
deriving DecidableEq

/-- `mask_ds[m]`: first layer with the given name, if any. -/
def MaskDS.getLayer (ds : MaskDS) (name : String) : Option LayerData :=
  (ds.layers.find? (fun e => e.1 == name)).map Prod.snd

/-- Python `str.capitalize()`: first character upper-cased, the rest
lower-cased (ASCII action). -/
def pyCapitalize (s : String) : String :=
  match s.data with
  | [] => ⟨[]⟩
  | c :: cs => ⟨Char.toUpper c :: cs.map Char.toLower⟩

/-- `pd.date_range("1/1/y", "12/31/y", freq="MS")`: the twelve month
starts of the year. -/
def monthStartDates (year : Int) : List DateT :=
  (List.range 12).map (fun m => ⟨year, m + 1, 1⟩)

/-- `pd.date_range("1/1/y", "12/31/y", freq="D")`: every day of the
year. -/
def allDatesOfYear (year : Int) : List DateT :=
  ((List.range 12).map (fun m =>
    (List.range (daysInMonth year (m + 1))).map
      (fun d => (⟨year, m + 1, d + 1⟩ : DateT)))).flatten

/-- The `date_cols` of `get_masks` (sample.py lines 279-290): daily gives
every day, monthly the month starts, anything else the year start. -/
def date_range_cols (year : Int) (time_step : String) : List DateT :=
  if time_step = "daily" then allDatesOfYear year
  else if time_step = "monthly" then monthStartDates year
  else [⟨year, 1, 1⟩]

/-- A pandas column label: either a date (Timestamp) or a string. -/
inductive ColKey
  | date (d : DateT)
  | str (s : String)
deriving DecidableEq

/-- The observable state of one of the `pd.DataFrame` output tables:
its row index and its labelled columns. -/
structure PdFrame where
  index : List Int
  cols : List (ColKey × List Cell)
deriving DecidableEq

/-- `pd.DataFrame(index=values, columns=date_cols)`: all cells NaN. -/
def mkEmptyFrame (index : List Int) (dates : List DateT) : PdFrame :=
  ⟨index, dates.map (fun d => (.date d, index.map (fun _ => (none : Cell))))⟩

/-- The `MaskValues` computation of `get_masks` (lines 272-274): flatten,
drop NaN, truncate to int, deduplicate.  (`list(set(...))` leaves the
order unspecified in Python; the model keeps a canonical order.) -/
def maskValuesOf (grid : List (List Cell)) : List Int :=
  ((grid.flatten.filter (fun c => c.isSome)).map
    (fun c => truncQ (c.getD 0))).dedup

/-- Filesystem effects of the sampling pipeline. -/
inductive FsEvent
  | mkdirP (path : String)
  | csvWrite (path : String)
deriving DecidableEq

/-- One entry of the `masks` list built by `get_masks`:
`(m, Mask, MaskType, MaskValues, OutputPath, dfOut)`. -/
structure MaskEntry where
  name : String
  grid : List (List Cell)
  maskType : String
  values : List Int
  outputPath : String
  table : PdFrame
deriving DecidableEq

/-- The loop of `get_masks` (sample.py lines 266-299).  `dfPrev` models
the Python local variable `dfOut` across loop iterations: when a layer's
`Type` is neither "Polygon" nor "Point" no branch assigns `dfOut`, so the
append reads the *previous* iteration's table, or raises
`UnboundLocalError` on the first iteration. -/
def get_masks_go (mask_ds : MaskDS) (output_dir : String) (year : Int)
    (time_step : String) :
    List String → Option PdFrame → List FsEvent → List MaskEntry →
    List FsEvent × Except String (List MaskEntry)
  | [], _, evs, acc => (evs, .ok acc)
  | m :: ms, dfPrev, evs, acc =>
    match mask_ds.getLayer m with
    | none => (evs, .error ("KeyError: " ++ m))
    | some layer =>
      let values := maskValuesOf layer.data
      let outputPath := output_dir ++ "/" ++ m ++ "/" ++ pyCapitalize time_step
      let evs1 := evs ++ [.mkdirP outputPath]
      let dateCols := date_range_cols year time_step
      let dfOut? : Option PdFrame :=
        if layer.typeAttr = "Polygon" then some (mkEmptyFrame values dateCols)
        else if layer.typeAttr = "Point" then some (mkEmptyFrame values dateCols)
        else dfPrev
      match dfOut? with
      | none =>
        (evs1, .error "UnboundLocalError: local variable referenced before assignment")
      | some df =>
        get_masks_go mask_ds output_dir year time_step ms (some df) evs1
          (acc ++ [⟨m, layer.data, layer.typeAttr, values, outputPath, df⟩])

/-- `get_masks` (sample.py lines 266-299): build one output table per
mask layer, recording the directory creations it performs. -/
def get_masks (mask_ds : MaskDS) (mask_layers : List String)
    (output_dir : String) (year : Int) (time_step : String) :
    List FsEvent × Except String (List MaskEntry) :=
  get_masks_go mask_ds output_dir year time_step mask_layers none [] []

/-- The dataset for the C9 counter-scenario: a valid Point layer "A"
followed by a layer "B" whose `Type` is neither "Point" nor "Polygon". -/
def c9MaskDS : MaskDS :=
  ⟨[("ID", ⟨[[some 1]], "Point"⟩), ("A", ⟨[[some 1]], "Point"⟩),
    ("B", ⟨[[some 2]], "Garbage"⟩)]⟩

/-- **C9** — The claim fails on the code: `get_masks` has no branch for
an unrecognized `Type` attribute, so no `UnknownMaskTypeError` exists.
First conjunct: with layers `["A", "B"]` where "B" has `Type` "Garbage",
the builder *succeeds* and silently gives "B" layer "A"'s table (index
`[1]`, not B's identifier 2).  Second conjunct: when the unknown-typed
layer comes first, the code instead crashes with `UnboundLocalError`
(the local `dfOut` was never assigned), not an `UnknownMaskTypeError`. -/
theorem get_masks_unknown_type_behavior :
    (get_masks c9MaskDS ["A", "B"] "out" 2001 "annual").2 =
      .ok [⟨"A", [[some 1]], "Point", [1], "out/A/Annual",
             mkEmptyFrame [1] [⟨2001, 1, 1⟩]⟩,
           ⟨"B", [[some 2]], "Garbage", [2], "out/B/Annual",
             mkEmptyFrame [1] [⟨2001, 1, 1⟩]⟩] ∧
    (get_masks ⟨[("B", ⟨[[some 2]], "Garbage"⟩)]⟩ ["B"] "out" 2001
        "annual").2 =
      .error "UnboundLocalError: local variable referenced before assignment" :=
  ⟨rfl, rfl⟩

/-- Zero-padded decimal digits of width `w`. -/
def padNum (w n : Nat) : List Char :=
  let s := Nat.toDigits 10 n
  List.replicate (w - s.length) '0' ++ s

/-- `Date.strftime("%Y-%m-%d")` for the dates this pipeline produces. -/
def fmtYMD (d : DateT) : String :=
  ⟨padNum 4 d.year.toNat ++ ['-'] ++ padNum 2 d.month ++ ['-'] ++
    padNum 2 d.day⟩

/-- `np.sum` over selected cells: 0 on an empty selection, NaN if any
selected cell is NaN. -/
def npSum (l : List Cell) : Cell :=
  if l.any (fun c => c.isNone) then none
  else some ((l.map (fun c => c.getD 0)).sum)

/-- `np.mean` over selected cells: NaN on an empty selection, NaN if any
selected cell is NaN. -/
def npMean (l : List Cell) : Cell :=
  if l.length = 0 then none
  else if l.any (fun c => c.isNone) then none
  else some ((l.map (fun c => c.getD 0)).sum / (l.length : ℚ))

/-- `Data[Mask == i]`: the data cells at positions whose mask cell equals
the identifier (elementwise over the common enumeration; NaN mask cells
match nothing). -/
def selectWhereId (mask data : List (List Cell)) (i : Int) : List Cell :=
  ((mask.flatten.zip data.flatten).filter
    (fun p => cellEq p.1 (some (i : ℚ)))).map Prod.snd

/-- Replace the column `k` of a frame, or append it if absent (pandas
`df[k] = vals`). -/
def PdFrame.setCol (t : PdFrame) (k : ColKey) (vals : List Cell) : PdFrame :=
  if t.cols.any (fun p => p.1 == k) then
    ⟨t.index, t.cols.map (fun p => if p.1 == k then (k, vals) else p)⟩
  else ⟨t.index, t.cols ++ [(k, vals)]⟩

/-- The Point-mask column assignment (sample.py lines 404-409): the
assigned frame is indexed by the mask's non-NaN identifiers and aligned
to the table's row index; rows absent from the assignment stay NaN.
(pandas alignment; an index label duplicated in the assigned frame is
modelled by its first occurrence.) -/
def pointColumn (mask data : List (List Cell)) (index : List Int) :
    List Cell :=
  let pairs := (mask.flatten.zip data.flatten).filterMap
    (fun p => match p.1 with
      | some q => some (truncQ q, p.2)
      | none => none)
  index.map (fun i =>
    match pairs.find? (fun pr => pr.1 == i) with
    | some pr => pr.2
    | none => none)

/-- The per-record per-mask update of `sample_ds` (lines 391-409):
Polygon masks get `mean_<date>` and `sum_<date>` columns (the `pass` in
the source is a no-op; the assignments after it run), Point masks get a
date-labelled column, any other declared type is silently skipped by the
if/elif. -/
def updateMask (grid : List (List Cell)) (date : DateT) (mk : MaskEntry) :
    MaskEntry :=
  if mk.maskType = "Polygon" then
    let t1 := mk.table.setCol (.str ("mean_" ++ fmtYMD date))
      (mk.values.map (fun i => npMean (selectWhereId mk.grid grid i)))
    let t2 := t1.setCol (.str ("sum_" ++ fmtYMD date))
      (mk.values.map (fun i => npSum (selectWhereId mk.grid grid i)))
    ⟨mk.name, mk.grid, mk.maskType, mk.values, mk.outputPath, t2⟩
  else if mk.maskType = "Point" then
    ⟨mk.name, mk.grid, mk.maskType, mk.values, mk.outputPath,
      mk.table.setCol (.date date) (pointColumn mk.grid grid mk.table.index)⟩
  else mk

/-- Obtain the byte stream behind the handle `get_true_datastream`
returned.  `fs` maps a file path to the (already decompressed, for the
gzip reader) byte content the reader would deliver; a `.direct` handle is
the passed-in stream itself. -/
def readerBytes (fs : List (String × List Byte)) (file_in : FileInput) :
    DsReader → Except String (List Byte)
  | .gzipFile p =>
    match (fs.find? (fun e => e.1 == p)).map Prod.snd with
    | some bytes => .ok bytes
    | none => .error ("FileNotFoundError: " ++ p)
  | .rawFile p =>
    match (fs.find? (fun e => e.1 == p)).map Prod.snd with
    | some bytes => .ok bytes
    | none => .error ("FileNotFoundError: " ++ p)
  | .direct =>
    match file_in with
    | .stream bytes _ => .ok bytes
    | .path _ => .error "unreachable: a path input never resolves to .direct"

/-- `sample_ds` (sample.py lines 358-412): resolve the source, build the
mask tables (creating their directories), drive `iter_ds` updating the
in-memory tables per record, and only after normal exhaustion write one
CSV per mask layer.  Result: the filesystem event trace and the error the
run raised, if any. -/
def sample_ds (fs : List (String × List Byte)) (mask_nc : MaskDS)
    (file_in : FileInput) (mask_layers : List String) (output_dir : String)
    (year : Int) (varName : String) (time_step : String) :
    List FsEvent × Option String :=
  match (match get_true_datastream file_in with
         | .error e => .error e
         | .ok r => readerBytes fs file_in r : Except String (List Byte)) with
  | .error e => ([], some e)
  | .ok file_buf =>
    match get_masks mask_nc mask_layers output_dir year time_step with
    | (evs, .error e) => (evs, some e)
    | (evs, .ok masks) =>
      match mask_nc.getLayer "ID" with
      | none => (evs, some "KeyError: ID")
      | some idLayer =>
        let run := iter_ds file_buf idLayer.data year time_step
        let masksFinal := run.yields.foldl
          (fun (ms : List MaskEntry) item =>
            ms.map (updateMask item.1 item.2)) masks
        match run.outcome with
        | .error e => (evs, some e)
        | .ok _ =>
          (evs ++ masksFinal.map (fun mk => FsEvent.csvWrite
            (mk.outputPath ++ "/" ++ varName ++ "_" ++ toString year ++
              ".csv")), none)

/-- `get_masks_go` only ever appends directory-creation events. -/
theorem get_masks_go_no_write (mask_ds : MaskDS) (output_dir : String)
    (year : Int) (time_step : String) :
    ∀ (ms : List String) (dfPrev : Option PdFrame) (evs : List FsEvent)
      (acc : List MaskEntry) (p : String),
      FsEvent.csvWrite p ∉ evs →
      FsEvent.csvWrite p ∉
        (get_masks_go mask_ds output_dir year time_step ms dfPrev evs acc).1 := by
  intro ms
  induction ms with
  | nil => intro _ evs _ p hp; exact hp
  | cons m rest ih =>
    intro dfPrev evs acc p hp
    unfold get_masks_go
    rcases hl : mask_ds.getLayer m with _ | layer
    · simp only [hl]
      exact hp
    · simp only [hl]
      have hp1 : FsEvent.csvWrite p ∉ evs ++ [FsEvent.mkdirP
          (output_dir ++ "/" ++ m ++ "/" ++ pyCapitalize time_step)] := by
        intro hmem
        rcases List.mem_append.mp hmem with hmem | hmem
        · exact hp hmem
        · simp at hmem
      split
      · exact hp1
      · exact ih _ _ _ p hp1

/-- The trace of `get_masks` holds no CSV-write event. -/
theorem get_masks_no_write (mask_ds : MaskDS) (mask_layers : List String)
    (output_dir : String) (year : Int) (time_step : String) (p : String) :
    FsEvent.csvWrite p ∉
      (get_masks mask_ds mask_layers output_dir year time_step).1 :=
  get_masks_go_no_write mask_ds output_dir year time_step mask_layers none
    [] [] p (by intro hmem; cases hmem)

/-- **C7** — `sample_ds` persists the per-layer CSV tables only after the
decode iteration has fully completed: whenever the run ends in an error,
its filesystem trace contains no CSV write (so partial CSV output cannot
occur; only directory creations may have happened). -/
theorem sample_ds_no_partial_write (fs : List (String × List Byte))
    (mask_nc : MaskDS) (file_in : FileInput) (mask_layers : List String)
    (output_dir : String) (year : Int) (varName : String)
    (time_step : String) (tr : List FsEvent) (err : String)
    (h : sample_ds fs mask_nc file_in mask_layers output_dir year varName
      time_step = (tr, some err)) :
    ∀ p, FsEvent.csvWrite p ∉ tr := by
  intro p
  unfold sample_ds at h
  split at h
  · injection h with h1 h2
    rw [← h1]
    intro hmem
    cases hmem
  · rename_i file_buf hres
    split at h
    · rename_i evs e hgm
      injection h with h1 h2
      rw [← h1]
      have := get_masks_no_write mask_nc mask_layers output_dir year
        time_step p
      rw [hgm] at this
      exact this
    · rename_i evs masks hgm
      rcases hid : mask_nc.getLayer "ID" with _ | idLayer
      · simp only [hid] at h
        injection h with h1 h2
        rw [← h1]
        have := get_masks_no_write mask_nc mask_layers output_dir year
          time_step p
        rw [hgm] at this
        exact this
      · simp only [hid] at h
        split at h
        · injection h with h1 h2
          rw [← h1]
          have := get_masks_no_write mask_nc mask_layers output_dir year
            time_step p
          rw [hgm] at this
          exact this
        · injection h with h1 h2
          cases h2

/-- The mask dataset for the C7 witness: an identifier layer and one
Point mask layer. -/
def c7MaskDS : MaskDS :=
  ⟨[("ID", ⟨[[some 1]], "Point"⟩), ("A", ⟨[[some 1]], "Point"⟩)]⟩

/-- Witness for C7: a run over an empty byte stream fails at the first
header read, its trace is the single directory creation, and the theorem
yields that no CSV write occurred. -/
theorem sample_ds_no_partial_write_witness :
    FsEvent.csvWrite "out/A/Annual/Discharge_2001.csv" ∉
      [FsEvent.mkdirP "out/A/Annual"] :=
  sample_ds_no_partial_write [] c7MaskDS (.stream [] none) ["A"] "out" 2001
    "Discharge" "annual" [FsEvent.mkdirP "out/A/Annual"]
    "ValueError: Buffer size too small (MFdsHeader.from_buffer_copy)" rfl
    "out/A/Annual/Discharge_2001.csv"

/-- What one `next()` on the `iter_gdbc` generator can produce. -/
inductive GenEvent
  | yielded (item : (List (List Cell) × DateT))
  | stopIteration
  | raised (e : String)

/-- The observable state of an `iter_gdbc` generator (sample.py lines
336-355).  `run` carries what the wrapped `iter_ds` still has to yield
and how it will terminate; `pipeOpen` tracks the stdout pipe of the
`rgis2ds` subprocess spawned by `gdbc_to_ds_buffer`. -/
structure GdbcGen where
  started : Bool
  finished : Bool
  pipeOpen : Bool
  run : DsRun

/-- The generator object as created by calling `iter_gdbc(...)`: nothing
has run yet; `gdbcOut` is the byte stream the conversion subprocess will
write to its stdout, `gdbc_to_ds_buffer` being spawned on first
resume. -/
def iter_gdbc_start (gdbcOut : List Byte) (mask_id : List (List Cell))
    (year : Int) (time_step : String) : GdbcGen :=
  ⟨false, false, false, iter_ds gdbcOut mask_id year time_step⟩

/-- `next()` on the generator.  A pending record is yielded with the
generator suspended inside the `try` at the `yield`.  Normal exhaustion
raises `StopIteration` without closing the pipe (the `except
GeneratorExit` handler does not run), and an `iter_ds` error propagates,
also leaving the pipe open. -/
def genNext (g : GdbcGen) : GdbcGen × GenEvent :=
  if g.finished then (g, .stopIteration)
  else
    match g.run.yields with
    | item :: rest =>
      (⟨true, false, true, ⟨rest, g.run.outcome⟩⟩, .yielded item)
    | [] =>
      match g.run.outcome with
      | .ok r => (⟨true, true, true, ⟨[], .ok r⟩⟩, .stopIteration)
      | .error e => (⟨true, true, true, ⟨[], .error e⟩⟩, .raised e)

/-- `generator.close()`.  On a generator suspended at the `yield`,
`GeneratorExit` is raised there, the `except GeneratorExit` clause runs
`file_buf.close()`, and the generator returns; `close()` itself raises
nothing.  On a not-yet-started or finished generator nothing runs. -/
def genClose (g : GdbcGen) : GdbcGen × Option String :=
  if g.started && !g.finished then (⟨true, true, false, g.run⟩, none)
  else (⟨g.started, true, g.pipeOpen, g.run⟩, none)

/-- `k` consecutive `next()` calls. -/
def genNextN : Nat → GdbcGen → GdbcGen
  | 0, g => g
  | k + 1, g => genNextN k (genNext g).1

/-- After `k ≤ pending` next calls on an unfinished generator, `k ≥ 1` of
them having run its body, the generator is suspended with `k` yields
consumed. -/
theorem genNextN_state :
    ∀ (k : Nat) (st po : Bool) (run : DsRun), k ≤ run.yields.length →
      genNextN k ⟨st, false, po, run⟩ =
        ⟨st || decide (1 ≤ k), false, po || decide (1 ≤ k),
          ⟨run.yields.drop k, run.outcome⟩⟩ := by
  intro k
  induction k with
  | zero =>
    intro st po run _
    simp only [genNextN, decide_eq_true_eq]
    rcases run with ⟨ys, oc⟩
    simp
  | succ j ih =>
    intro st po run hlen
    rcases run with ⟨ys, oc⟩
    rcases ys with _ | ⟨item, rest⟩
    · simp at hlen
    · unfold genNextN
      rw [show (genNext ⟨st, false, po, ⟨item :: rest, oc⟩⟩).1 =
          ⟨true, false, true, ⟨rest, oc⟩⟩ from rfl]
      rw [ih true true ⟨rest, oc⟩ (by simpa using hlen)]
      simp

/-- **C8** — Whenever a consumer of `iter_gdbc` abandons the iteration
early — it has taken `k ≥ 1` records, not exhausted the generator, and
closes it — the spawned subprocess's stdout pipe is explicitly closed by
the `except GeneratorExit` handler, and the close itself raises no
error. -/
theorem iter_gdbc_abandon_closes_pipe (gdbcOut : List Byte)
    (mask_id : List (List Cell)) (year : Int) (time_step : String) (k : Nat)
    (h1 : 1 ≤ k)
    (h2 : k ≤ (iter_ds gdbcOut mask_id year time_step).yields.length) :
    (genClose (genNextN k
      (iter_gdbc_start gdbcOut mask_id year time_step))).1.pipeOpen = false ∧
    (genClose (genNextN k
      (iter_gdbc_start gdbcOut mask_id year time_step))).2 = none := by
  unfold iter_gdbc_start
  rw [genNextN_state k false false (iter_ds gdbcOut mask_id year time_step) h2]
  have hk : decide (1 ≤ k) = true := decide_eq_true h1
  rw [hk]
  constructor
  · rfl
  · rfl

/-- Witness for C8: the consumer takes 1 of the 12 records of the
concrete monthly stream and closes the generator. -/
theorem iter_gdbc_abandon_witness :
    (genClose (genNextN 1
      (iter_gdbc_start dsStreamMonthly [[some 1]] 2001
        "monthly"))).1.pipeOpen = false ∧
    (genClose (genNextN 1
      (iter_gdbc_start dsStreamMonthly [[some 1]] 2001 "monthly"))).2 =
      none :=
  iter_gdbc_abandon_closes_pipe dsStreamMonthly [[some 1]] 2001 "monthly" 1
    (Nat.le_refl 1) (by decide)
